import Mathlib

/-!
Shallow embedding of the configuration generator in `src/cmd/lancache-dns.go`
(repository `lancachenet/dnstool`).

The Go source is embedded as executable Lean definitions:
* the process environment is a partial map `Env`;
* the files written by the generator (the cache zone, the RPZ zone, the
  operator custom zone and the resolver template) form the state `FS`,
  threaded explicitly; `os.Create` replaces a file's content and every
  `Fprintln` appends one line;
* fallible Go functions return their result together with an
  `Option String` error (`none` is success), mirroring Go's `error`.

The Go standard-library string operations used by the source
(`strings.ToUpper`, `strings.ToLower`, `strings.TrimSpace`,
`strings.HasPrefix`, `strings.Split`) are re-implemented here by structural
recursion over `String.data` so that every definition evaluates inside the
kernel; they agree with the Go functions on the ASCII inputs the program
handles.

The helper functions `cleanIP`, `isIP`, `isPrivateIP` and `reverseIPv4`, and
the path/template constants (`zonePath`, `rpzZone`, `customZone`,
`fmtCacheTemplate`, `rpzTemplate`), are part of this repository but are not
under `src/`; the functions are modelled from the spec (each doc comment
says so) and the constants are taken as parameters.
-/

namespace LancacheDNS

/-- ASCII upper-casing of one character (models Go `strings.ToUpper` per
character on the ASCII range the program uses). -/
def asciiUpper (c : Char) : Char :=
  if 'a' ≤ c && c ≤ 'z' then Char.ofNat (c.toNat - 32) else c

/-- ASCII lower-casing of one character (models Go `strings.ToLower`). -/
def asciiLower (c : Char) : Char :=
  if 'A' ≤ c && c ≤ 'Z' then Char.ofNat (c.toNat + 32) else c

/-- Models Go `strings.ToUpper` (ASCII). -/
def strUpper (s : String) : String := String.mk (s.data.map asciiUpper)

/-- Models Go `strings.ToLower` (ASCII). -/
def strLower (s : String) : String := String.mk (s.data.map asciiLower)

/-- Whitespace characters recognised by Go `unicode.IsSpace` on ASCII input. -/
def isWS (c : Char) : Bool := c == ' ' || c == '\t' || c == '\n' || c == '\r'

/-- Models Go `strings.TrimSpace` (ASCII whitespace). -/
def trimStr (s : String) : String :=
  String.mk (((s.data.dropWhile isWS).reverse.dropWhile isWS).reverse)

/-- Models Go `strings.HasPrefix`. -/
def strHasPre (s p : String) : Bool := p.data.isPrefixOf s.data

/-- Splitting a character list at every separator character. -/
def splitGo (p : Char → Bool) : List Char → List Char → List String
  | [], acc => [String.mk acc.reverse]
  | c :: cs, acc =>
      if p c then String.mk acc.reverse :: splitGo p cs []
      else splitGo p cs (c :: acc)

/-- Models splitting a string at every character satisfying `p`
(Go `strings.Split` / `strings.FieldsFunc` on one-character separators). -/
def splitStr (p : Char → Bool) (s : String) : List String := splitGo p s.data []

/-- Decimal value of a digit list, most significant first. -/
def natOfDigits : List Char → Nat → Nat
  | [], n => n
  | c :: cs, n => natOfDigits cs (n * 10 + (c.toNat - 48))

/-- Decimal digit test. -/
def digitChar (c : Char) : Bool := '0' ≤ c && c ≤ '9'

/-- Models Go `strconv.Atoi` restricted to unsigned decimal numerals. -/
def strToNat? (s : String) : Option Nat :=
  if s.data ≠ [] && s.data.all digitChar then some (natOfDigits s.data 0) else none

/-- Models Go `strings.Join`. -/
def interc (sep : String) : List String → String
  | [] => ""
  | [x] => x
  | x :: xs => x ++ sep ++ interc sep xs

/-- The process environment: a partial map from variable names to values.
`none` means the variable is not set. -/
def Env : Type := String → Option String

/-- Models Go `os.Getenv`: the empty string when the variable is unset. -/
def getenv (env : Env) (k : String) : String := (env k).getD ""

/-- Models the presence bit of Go `os.LookupEnv`. -/
def lookupEnv (env : Env) (k : String) : Bool := (env k).isSome

/-- Modelled from the spec: `cleanIP` (§4.1 `parseIPList`) is code of this
repository that is not under `src/`. It splits the raw value on whitespace
and commas, trims each piece and drops empties. -/
def cleanIP (raw : String) : List String :=
  ((splitStr (fun c => isWS c || c == ',') raw).map trimStr).filter (fun s => s != "")

/-- One dot-separated IPv4 octet: a decimal numeral up to 255 without a
leading zero. -/
def isOctet (s : String) : Bool :=
  match strToNat? s with
  | some n => decide (n ≤ 255) && (s.data.length == 1 || !(strHasPre s "0"))
  | none => false

/-- Syntactically valid IPv4 address: four valid octets. -/
def isIPv4 (s : String) : Bool :=
  let parts := splitStr (· == '.') s
  parts.length == 4 && parts.all isOctet

/-- Modelled from the spec: `isIP` (§4.1 `validateIPs`) is code of this
repository that is not under `src/`. It fails if any element is not a
syntactically valid IPv4 or IPv6 address (IPv6 is modelled coarsely as a
string containing a colon); `none` is success. -/
def isIP (ips : List String) : Option String :=
  match ips.find? (fun ip => !(isIPv4 ip || ip.data.contains ':')) with
  | some ip => some ("Invalid IP address " ++ ip)
  | none => none

/-- The numeric octets of a dotted string (0 for malformed pieces). -/
def ipv4Octets (s : String) : List Nat :=
  (splitStr (· == '.') s).map (fun p => (strToNat? p).getD 0)

/-- An IPv4 address inside the RFC1918, loopback or link-local ranges. -/
def isPrivateIPv4 (s : String) : Bool :=
  isIPv4 s &&
    (match ipv4Octets s with
     | a :: b :: _ =>
         a == 10 || (a == 172 && decide (16 ≤ b) && decide (b ≤ 31)) ||
           (a == 192 && b == 168) || a == 127 || (a == 169 && b == 254)
     | _ => false)

/-- Modelled from the spec: `isPrivateIP` (§4.1 `validatePrivateIPs`) is code
of this repository that is not under `src/`. It fails if any element is not a
private-range IPv4 address (RFC1918, loopback or link-local); `none` is
success. Per spec §8 it accepts 10.0.0.1, 172.16.0.5, 192.168.1.1 and
127.0.0.1 and rejects 8.8.8.8 and 1.1.1.1. -/
def isPrivateIP (ips : List String) : Option String :=
  match ips.find? (fun ip => !isPrivateIPv4 ip) with
  | some ip => some ("IP address " ++ ip ++ " is not within a private range")
  | none => none

/-- Modelled from the spec: `reverseIPv4` (§4.1 `reverseOctets`) is code of
this repository that is not under `src/`. It returns the dot-reversed first
three octets (spec example: `1.2.3.4` gives `3.2.1`), used as the RPZ
passthrough key. -/
def reverseIPv4 (ip : String) : String :=
  interc "." ((splitStr (· == '.') ip).take 3).reverse

/-- `checkGenericCache` from `src/cmd/lancache-dns.go` (lines 138-152):
validates the generic-cache mode against the global cache IP before any
per-service resolution. `none` is success. -/
def checkGenericCache (useGenericCache cacheIP : String) : Option String :=
  let ips := cleanIP cacheIP
  if useGenericCache == "true" then
    if cacheIP == "" then
      some "If you are using USE_GENERIC_CACHE then you must set LANCACHE_IP"
    else
      isPrivateIP ips
  else if cacheIP != "" then
    some "If you are using LANCACHE_IP then you must set USE_GENERIC_CACHE=true"
  else
    none

/-- The file-system state written by the generator. The two zone artifacts
are kept as the list of chunks written to them (`os.Create` resets the list,
each `Fprintln` appends one element); `customZone` is `none` while the
operator custom-zone file does not exist; `namedConf` is the resolver
template content. -/
structure FS where
  cacheZone : List String
  rpzZone : List String
  customZone : Option String
  namedConf : String
deriving Repr, DecidableEq

/-- One `Fprintln` to the RPZ zone artifact. -/
def FS.appendRPZ (fs : FS) (line : String) : FS :=
  { fs with rpzZone := fs.rpzZone ++ [line] }

/-- One `Fprintln` to the cache zone artifact. -/
def FS.appendCache (fs : FS) (line : String) : FS :=
  { fs with cacheZone := fs.cacheZone ++ [line] }

/-- The state with no file content, used as a reference point by the frame
lemmas below. -/
def fs0 : FS := ⟨[], [], none, ""⟩

/-- `generateCacheZone` from `src/cmd/lancache-dns.go` (lines 208-226):
`os.Create` truncates the artifact, then the header template is written with
the DNS domain and the Unix timestamp as serial. The template text
`fmtCacheTemplate` is a constant of this repository outside `src/` and is a
parameter here. -/
def generateCacheZone (fmtCacheTemplate : String → String → String)
    (lancacheDNSDomain : String) (now : Int) (fs : FS) : FS :=
  { fs with cacheZone := [fmtCacheTemplate lancacheDNSDomain (toString now)] }

/-- `generateRPZZone` from `src/cmd/lancache-dns.go` (lines 228-245):
truncates the RPZ artifact and writes the fixed header `rpzTemplate`
(a constant outside `src/`, a parameter here). -/
def generateRPZZone (rpzTemplate : String) (fs : FS) : FS :=
  { fs with rpzZone := [rpzTemplate] }

/-- A `cache_domains` catalog entry (`CacheFile` element). -/
structure ServiceEntry where
  name : String
  domainFiles : List String
deriving Repr, DecidableEq

/-- `identifyServices` from `src/cmd/lancache-dns.go` (lines 247-270):
collects each entry's name and the first element of its `domain_files` list.
The Go index access `services.DomainFiles[0]` panics when that list is
empty; the panic is modelled as `none`. -/
def identifyServices : List ServiceEntry → Option (List String × List String)
  | [] => some ([], [])
  | e :: rest =>
      match e.domainFiles with
      | [] => none
      | f :: _ =>
          match identifyServices rest with
          | none => none
          | some (names, fileList) => some (e.name :: names, f :: fileList)

/-- The enablement decision of `generateService` (lines 289-299): in generic
mode the service is enabled unless `DISABLE_<SERVICE>` is exactly `"true"`;
otherwise it is enabled iff `<SERVICE>CACHE_IP` is present in the
environment. -/
def serviceEnabled (env : Env) (genericCache service : String) : Bool :=
  let s := strUpper service
  if genericCache == "true" then getenv env ("DISABLE_" ++ s) != "true"
  else lookupEnv env (s ++ "CACHE_IP")

/-- The target-IP resolution of `generateService` (lines 302-306): the
`<SERVICE>CACHE_IP` override when non-empty, else the global cache IP. -/
def resolveIP (env : Env) (cacheIP service : String) : String :=
  let s := strUpper service
  if getenv env (s ++ "CACHE_IP") != "" then getenv env (s ++ "CACHE_IP") else cacheIP

/-- The cache-zone A record written by `generateService` (line 345). -/
def aRecordLine (service ip : String) : String := service ++ " IN A " ++ ip ++ ";"

/-- The RPZ reverse-IP passthrough record written per resolved IP by
`generateService` (line 361). -/
def servicePassthruLine (ip : String) : String :=
  "32." ++ reverseIPv4 ip ++ ".rpz-client-ip      CNAME rpz-passthru.;"

/-- The per-IP loop of `generateService` (lines 333-366): one A record to the
cache zone and one passthrough record to the RPZ zone per resolved IP. -/
def serviceIPLoop (service : String) : List String → FS → FS
  | [], fs => fs
  | ip :: rest, fs =>
      serviceIPLoop service rest
        ((fs.appendCache (aRecordLine service ip)).appendRPZ (servicePassthruLine ip))

/-- The RPZ rewrite line of `generateDomains` (line 418). -/
def domainLine (lancacheDNSDomain service line : String) : String :=
  trimStr line ++ " IN CNAME " ++ service ++ "." ++ lancacheDNSDomain ++ ".;"

/-- The read loop of `generateDomains` (lines 407-421): lines starting with
`#` are skipped, every other line is trimmed, rewritten and appended. -/
def generateDomainsLoop (lancacheDNSDomain service : String) : List String → FS → FS
  | [], fs => fs
  | line :: rest, fs =>
      if strHasPre line "#" then generateDomainsLoop lancacheDNSDomain service rest fs
      else
        generateDomainsLoop lancacheDNSDomain service rest
          (fs.appendRPZ (domainLine lancacheDNSDomain service line))

/-- `generateDomains` from `src/cmd/lancache-dns.go` (lines 383-424). The
domain files are read through `files` (`none` models an open error for a
missing file, as its content as a list of lines is absent). -/
def generateDomains (files : String → Option (List String))
    (serviceFile lancacheDNSDomain service : String) (fs : FS) : FS × Option String :=
  match files serviceFile with
  | none => (fs, some ("open " ++ serviceFile ++ ": no such file or directory"))
  | some lines => (generateDomainsLoop lancacheDNSDomain service lines fs, none)

/-- `generateService` from `src/cmd/lancache-dns.go` (lines 284-381). -/
def generateService (env : Env) (files : String → Option (List String))
    (genericCache cacheIP lancacheDNSDomain service serviceFile : String)
    (fs : FS) : FS × Option String :=
  let serviceU := strUpper service
  if serviceEnabled env genericCache service then
    let ip := resolveIP env cacheIP service
    if ip != "" then
      let serviceL := strLower serviceU
      let fs1 := fs.appendRPZ (";## " ++ serviceL)
      let ips := cleanIP ip
      match isPrivateIP ips with
      | some e => (fs1, some e)
      | none =>
          let fs2 := serviceIPLoop serviceL ips fs1
          if ips.isEmpty then (fs2, none)
          else generateDomains files serviceFile lancacheDNSDomain serviceL fs2
    else (fs, some ("Could not find IP for requested service: " ++ serviceU))
  else (fs, none)

/-- `checkService` from `src/cmd/lancache-dns.go` (lines 272-282): services
and their files are consumed pairwise in catalog order, stopping at the first
error. -/
def checkService (env : Env) (files : String → Option (List String))
    (genericCache cacheIP lancacheDNSDomain : String) :
    List (String × String) → FS → FS × Option String
  | [], fs => (fs, none)
  | (service, serviceFile) :: rest, fs =>
      match generateService env files genericCache cacheIP lancacheDNSDomain service serviceFile fs with
      | (fs1, some e) => (fs1, some e)
      | (fs1, none) => checkService env files genericCache cacheIP lancacheDNSDomain rest fs1

/-- The RPZ reverse-IP passthrough record appended per operator-declared
passthrough IP by `finaliseConfiguration` (line 450). Unlike the per-service
record of line 361 it carries no trailing semicolon. -/
def finaliserPassthruLine (ip : String) : String :=
  "32." ++ reverseIPv4 ip ++ ".rpz-client-ip      CNAME rpz-passthru."

/-- The `PASSTHRU_IPS` loop of `finaliseConfiguration` (lines 433-453): per
IP, the comment line and the passthrough record are appended. -/
def finaliserPassthruLoop : List String → FS → FS
  | [], fs => fs
  | ip :: rest, fs =>
      finaliserPassthruLoop rest
        ((fs.appendRPZ ";## Additional RPZ passthroughs").appendRPZ (finaliserPassthruLine ip))

/-- Literal single-pattern replacement by structural recursion (models one
pattern of Go `strings.NewReplacer`; `fuel` is the input length). -/
def replaceFuel (pat repl : List Char) : Nat → List Char → List Char
  | 0, l => l
  | _ + 1, [] => []
  | n + 1, c :: cs =>
      if pat.isPrefixOf (c :: cs) then repl ++ replaceFuel pat repl n ((c :: cs).drop pat.length)
      else c :: replaceFuel pat repl n cs

/-- Literal replacement on strings. -/
def replaceStr (s pat repl : String) : String :=
  String.mk (replaceFuel pat.data repl.data s.data.length s.data)

/-- The per-line template substitution of `finaliseConfiguration` (lines
490-501): the upstream-DNS marker is removed, the `dns_ip` token replaced by
the semicolon-joined upstream list, and, when DNSSEC validation is
requested, the DNSSEC-off directive replaced by the auto directive. The Go
`strings.NewReplacer` applies its patterns in one simultaneous pass;
sequential replacement agrees with it on the template's placeholder lines. -/
def rewriteNamedConf (env : Env) (dns : List String) (conf : String) : String :=
  let lines := splitStr (· == '\n') conf
  let rewriteLine := fun (line : String) =>
    let base := replaceStr (replaceStr line "#ENABLE_UPSTREAM_DNS#" "") "dns_ip" (interc "; " dns)
    if getenv env "ENABLE_DNSSEC_VALIDATION" == "true" then
      replaceStr base "dnssec-validation no" "dnssec-validation auto"
    else base
  interc "\n" (lines.map rewriteLine)

/-- `finaliseConfiguration` from `src/cmd/lancache-dns.go` (lines 426-510):
operator passthrough IPs, then the custom-zone file (created empty only when
absent), then the `$INCLUDE` directive, then the resolver-template rewrite.
`customZonePath` is the path constant `customZone` (outside `src/`). -/
def finaliseConfiguration (env : Env) (customZonePath : String) (dns : List String)
    (fs : FS) : FS × Option String :=
  let passthru := getenv env "PASSTHRU_IPS"
  let step1 : FS × Option String :=
    if passthru != "" then
      let ips := cleanIP passthru
      match isIP ips with
      | some e => (fs, some e)
      | none => (finaliserPassthruLoop ips fs, none)
    else (fs, none)
  match step1 with
  | (fs1, some e) => (fs1, some e)
  | (fs1, none) =>
      let fs2 :=
        match fs1.customZone with
        | none => { fs1 with customZone := some "" }
        | some _ => fs1
      let fs3 := fs2.appendRPZ ("$INCLUDE " ++ customZonePath)
      ({ fs3 with namedConf := rewriteNamedConf env dns fs3.namedConf }, none)

/-- `generateConfiguration` from `src/cmd/lancache-dns.go` (lines 154-187),
from the creation of the two zone artifacts onward (the fixed-content
`cacheConf` boilerplate file is not part of the modelled state). The parsed
catalog, the domain files, the template texts and the custom-zone path are
inputs; `now` is the generation timestamp. The `identifyServices` panic on
an entry without domain files is modelled as an error result. -/
def generateConfiguration (env : Env) (files : String → Option (List String))
    (fmtCacheTemplate : String → String → String) (rpzTemplate customZonePath : String)
    (entries : List ServiceEntry) (dns : List String)
    (useGenericCache lancacheDNSDomain cacheIP : String) (now : Int)
    (fs : FS) : FS × Option String :=
  let fsA := generateCacheZone fmtCacheTemplate lancacheDNSDomain now fs
  let fsB := generateRPZZone rpzTemplate fsA
  match identifyServices entries with
  | none => (fsB, some "runtime error: index out of range")
  | some (services, serviceFiles) =>
      match checkService env files useGenericCache cacheIP lancacheDNSDomain
          (services.zip serviceFiles) fsB with
      | (fsC, some e) => (fsC, some e)
      | (fsC, none) => finaliseConfiguration env customZonePath dns fsC

/-- The effective DNS domain computed by `generateLancacheDNS` (lines 32-35):
the built-in default survives only when the environment variable already
equals it. -/
def effectiveDNSDomain (env : Env) : String :=
  let d := "cache.lancache.net"
  if getenv env "LANCACHE_DNSDOMAIN" != "cache.lancache.net" then
    getenv env "LANCACHE_DNSDOMAIN"
  else d

/-- The effective upstream DNS computed by `generateLancacheDNS`
(lines 39-42), same pattern as the DNS domain. -/
def effectiveUpstreamDNS (env : Env) : String :=
  if getenv env "UPSTREAM_DNS" != "8.8.8.8" then getenv env "UPSTREAM_DNS" else "8.8.8.8"

/-- The cache zone path of `generateLancacheDNS` (line 37); `zonePath` is a
constant outside `src/`, a parameter here. -/
def cacheZonePath (zonePath : String) (env : Env) : String :=
  zonePath ++ effectiveDNSDomain env ++ ".db"

/-- The RPZ lines appended by the `PASSTHRU_IPS` loop, as a function of the
IP list (characterisation target of `finaliserPassthruLoop`). -/
def passthruDelta (ips : List String) : List String :=
  (ips.map (fun ip => [";## Additional RPZ passthroughs", finaliserPassthruLine ip])).flatten

/-- An empty environment, used by concrete instantiations. -/
def envNone : Env := fun _ => none

/-- An environment whose only variable is `STEAMCACHE_IP`, set to the empty
string. -/
def envSteamPresent : Env := fun k => if k = "STEAMCACHE_IP" then some "" else none

/-- An environment whose only variable is `STEAMCACHE_IP`, set to
`10.0.0.9`. -/
def envSteamOverride : Env := fun k => if k = "STEAMCACHE_IP" then some "10.0.0.9" else none

/-- An environment whose only variable is `PASSTHRU_IPS`, set to
`203.0.113.5`. -/
def envPassthru : Env := fun k => if k = "PASSTHRU_IPS" then some "203.0.113.5" else none

/-- A file store holding one domain file `steam.txt` with a comment line, a
blank line and one hostname. -/
def filesSteam : String → Option (List String) :=
  fun f => if f = "steam.txt" then some ["# comment", "", "store.steampowered.com"] else none

end LancacheDNS

namespace LancacheDNS

/-- Both zone artifacts after the per-IP loop: one A record and one
passthrough record appended per IP, in input order. -/
theorem serviceIPLoop_spec (service : String) (ips : List String) (fs : FS) :
    serviceIPLoop service ips fs =
      { fs with cacheZone := fs.cacheZone ++ ips.map (aRecordLine service),
                rpzZone := fs.rpzZone ++ ips.map servicePassthruLine } := by
  induction ips generalizing fs with
  | nil => simp [serviceIPLoop]
  | cons ip rest ih => simp [serviceIPLoop, FS.appendCache, FS.appendRPZ, ih]

/-- The RPZ artifact after the domain-file loop: one rewrite line per line
that does not start with `#`. -/
theorem generateDomainsLoop_spec (dom service : String) (lines : List String) (fs : FS) :
    generateDomainsLoop dom service lines fs =
      { fs with rpzZone := fs.rpzZone ++
          (lines.filter (fun l => !(strHasPre l "#"))).map (domainLine dom service) } := by
  induction lines generalizing fs with
  | nil => simp [generateDomainsLoop]
  | cons l rest ih =>
      cases h : strHasPre l "#" with
      | true => simp [generateDomainsLoop, h, ih]
      | false => simp [generateDomainsLoop, h, ih, FS.appendRPZ]

/-- The RPZ artifact after the operator-passthrough loop. -/
theorem finaliserPassthruLoop_spec (ips : List String) (fs : FS) :
    finaliserPassthruLoop ips fs = { fs with rpzZone := fs.rpzZone ++ passthruDelta ips } := by
  induction ips generalizing fs with
  | nil => simp [finaliserPassthruLoop, passthruDelta]
  | cons ip rest ih => simp [finaliserPassthruLoop, passthruDelta, FS.appendRPZ, ih]

/-- C1: for every service, with `genericCache = "true"` the service is
enabled unless `DISABLE_<SERVICE>` (name upper-cased) is exactly `"true"`;
with any other `genericCache` value it is enabled iff `<SERVICE>CACHE_IP` is
present in the environment, so an override set to the empty string still
enables the service. -/
theorem claim_c1_enablement (env : Env) (g service : String) (hg : g ≠ "true") :
    (serviceEnabled env "true" service = true ↔
       env ("DISABLE_" ++ strUpper service) ≠ some "true")
    ∧ (serviceEnabled env g service = true ↔
       ∃ v, env (strUpper service ++ "CACHE_IP") = some v)
    ∧ (env (strUpper service ++ "CACHE_IP") = some "" →
       serviceEnabled env g service = true) := by
  have h2 : serviceEnabled env g service = true ↔
      ∃ v, env (strUpper service ++ "CACHE_IP") = some v := by
    simp [serviceEnabled, hg, lookupEnv, Option.isSome_iff_exists]
  refine ⟨?_, h2, fun h => h2.mpr ⟨"", h⟩⟩
  cases henv : env ("DISABLE_" ++ strUpper service) with
  | none => simp [serviceEnabled, getenv, henv]
  | some v => simp [serviceEnabled, getenv, henv]

/-- Witness for C1 at `g = "false"`, service `steam`, environment holding
only `STEAMCACHE_IP=""`. -/
theorem claim_c1_enablement_witness :
    ("false" : String) ≠ "true" ∧
    ((serviceEnabled envSteamPresent "true" "steam" = true ↔
        envSteamPresent ("DISABLE_" ++ strUpper "steam") ≠ some "true")
     ∧ (serviceEnabled envSteamPresent "false" "steam" = true ↔
        ∃ v, envSteamPresent (strUpper "steam" ++ "CACHE_IP") = some v)
     ∧ (envSteamPresent (strUpper "steam" ++ "CACHE_IP") = some "" →
        serviceEnabled envSteamPresent "false" "steam" = true)) :=
  ⟨by decide, claim_c1_enablement envSteamPresent "false" "steam" (by decide)⟩

/-- C2: `checkGenericCache` succeeds only in generic mode with a non-empty
global IP or non-generic mode with an empty global IP; generic mode with an
empty global IP and non-generic mode with a non-empty global IP each return
a configuration error. -/
theorem claim_c2_checkGenericCache (g ip : String) :
    (checkGenericCache g ip = none → (g = "true" ∧ ip ≠ "") ∨ (g ≠ "true" ∧ ip = ""))
    ∧ (g = "true" → ip = "" →
       checkGenericCache g ip =
         some "If you are using USE_GENERIC_CACHE then you must set LANCACHE_IP")
    ∧ (g ≠ "true" → ip ≠ "" →
       checkGenericCache g ip =
         some "If you are using LANCACHE_IP then you must set USE_GENERIC_CACHE=true") := by
  by_cases hg : g = "true" <;> by_cases hip : ip = ""
  · refine ⟨fun h => ?_, fun _ _ => by simp [checkGenericCache, hg, hip], fun h _ => absurd hg h⟩
    simp [checkGenericCache, hg, hip] at h
  · refine ⟨fun _ => Or.inl ⟨hg, hip⟩, fun _ h => absurd h hip, fun h _ => absurd hg h⟩
  · refine ⟨fun _ => Or.inr ⟨hg, hip⟩, fun h _ => absurd h hg, fun _ h => absurd hip h⟩
  · refine ⟨fun h => ?_, fun h _ => absurd h hg, fun _ _ => by simp [checkGenericCache, hg, hip]⟩
    simp [checkGenericCache, hg, hip] at h

/-- Witness for C2 at generic mode with an empty global IP. -/
theorem claim_c2_checkGenericCache_witness :
    checkGenericCache "true" "" =
      some "If you are using USE_GENERIC_CACHE then you must set LANCACHE_IP" :=
  (claim_c2_checkGenericCache "true" "").2.1 rfl rfl

/-- C9: the built-in defaults for `LANCACHE_DNSDOMAIN` and `UPSTREAM_DNS`
only survive when the environment variable already equals the default, so
the effective value always equals the raw environment value; an unset
`LANCACHE_DNSDOMAIN` makes the DNS domain empty and the cache zone path
`zonePath ++ ".db"`. -/
theorem claim_c9_defaults (env : Env) (zonePath : String) :
    effectiveDNSDomain env = getenv env "LANCACHE_DNSDOMAIN"
    ∧ effectiveUpstreamDNS env = getenv env "UPSTREAM_DNS"
    ∧ (env "LANCACHE_DNSDOMAIN" = none →
        effectiveDNSDomain env = "" ∧ cacheZonePath zonePath env = zonePath ++ ".db") := by
  have h1 : effectiveDNSDomain env = getenv env "LANCACHE_DNSDOMAIN" := by
    by_cases hd : getenv env "LANCACHE_DNSDOMAIN" = "cache.lancache.net"
    · simp [effectiveDNSDomain, hd]
    · simp [effectiveDNSDomain, hd]
  refine ⟨h1, ?_, fun h => ?_⟩
  · by_cases hu : getenv env "UPSTREAM_DNS" = "8.8.8.8"
    · simp [effectiveUpstreamDNS, hu]
    · simp [effectiveUpstreamDNS, hu]
  · have he : effectiveDNSDomain env = "" := by rw [h1]; simp [getenv, h]
    exact ⟨he, by simp [cacheZonePath, he]⟩

/-- Witness for C9 at the empty environment. -/
theorem claim_c9_defaults_witness :
    effectiveDNSDomain envNone = "" ∧ cacheZonePath "zones/" envNone = "zones/" ++ ".db" :=
  (claim_c9_defaults envNone "zones/").2.2 rfl

/-- C10: under the catalog invariant that every entry has at least one
domain file, `identifyServices` returns the names and first files in catalog
order (hence two lists of equal length); an entry with an empty
`domain_files` list makes the index access out of bounds (modelled `none`). -/
theorem claim_c10_identifyServices (entries : List ServiceEntry) :
    ((∀ e ∈ entries, e.domainFiles ≠ []) →
       identifyServices entries =
         some (entries.map ServiceEntry.name, entries.map (fun e => e.domainFiles.headD "")))
    ∧ ((∀ e ∈ entries, e.domainFiles ≠ []) →
       ∀ p, identifyServices entries = some p → p.1.length = p.2.length)
    ∧ (∀ e ∈ entries, e.domainFiles = [] → identifyServices entries = none) := by
  induction entries with
  | nil =>
      refine ⟨fun _ => rfl, fun _ p hp => ?_, fun e he => absurd he (List.not_mem_nil e)⟩
      cases hp
      rfl
  | cons e rest ih =>
      have hmain : (∀ x ∈ e :: rest, x.domainFiles ≠ []) →
          identifyServices (e :: rest) =
            some ((e :: rest).map ServiceEntry.name,
                  (e :: rest).map (fun x => x.domainFiles.headD "")) := by
        intro h
        have he : e.domainFiles ≠ [] := h e (List.mem_cons_self e rest)
        have hrest := ih.1 (fun x hx => h x (List.mem_cons_of_mem e hx))
        cases hfd : e.domainFiles with
        | nil => exact absurd hfd he
        | cons a b => simp [identifyServices, hfd, hrest]
      refine ⟨hmain, fun h p hp => ?_, fun x hx hempty => ?_⟩
      · rw [hmain h] at hp
        cases hp
        simp
      · rcases List.mem_cons.mp hx with rfl | hx2
        · show identifyServices (x :: rest) = none
          simp [identifyServices, hempty]
        · have hnone : identifyServices rest = none := ih.2.2 x hx2 hempty
          cases hfd : e.domainFiles with
          | nil => simp [identifyServices, hfd]
          | cons a b => simp [identifyServices, hfd, hnone]

/-- Witness for C10: a two-entry catalog satisfying the invariant, and a
catalog whose entry has no domain files. -/
theorem claim_c10_identifyServices_witness :
    identifyServices [⟨"steam", ["steam.txt", "extra.txt"]⟩, ⟨"origin", ["origin.txt"]⟩]
      = some (["steam", "origin"], ["steam.txt", "origin.txt"])
    ∧ identifyServices [⟨"bad", ([] : List String)⟩] = none :=
  ⟨((claim_c10_identifyServices
        [⟨"steam", ["steam.txt", "extra.txt"]⟩, ⟨"origin", ["origin.txt"]⟩]).1
      (by decide)).trans (by decide),
   (claim_c10_identifyServices [⟨"bad", ([] : List String)⟩]).2.2
     ⟨"bad", ([] : List String)⟩ (by decide) rfl⟩

end LancacheDNS

namespace LancacheDNS

/-- C3: for an enabled service the resolved target IP string is the
`<SERVICE>CACHE_IP` override when that value is non-empty and the global
cache IP otherwise; when both are empty, `generateService` returns an error
whose message names the offending service. -/
theorem claim_c3_resolved_ip (env : Env) (files : String → Option (List String))
    (g cacheIP dom service file : String) (fs : FS)
    (hen : serviceEnabled env g service = true) :
    (getenv env (strUpper service ++ "CACHE_IP") ≠ "" →
       resolveIP env cacheIP service = getenv env (strUpper service ++ "CACHE_IP"))
    ∧ (getenv env (strUpper service ++ "CACHE_IP") = "" →
       resolveIP env cacheIP service = cacheIP)
    ∧ (getenv env (strUpper service ++ "CACHE_IP") = "" → cacheIP = "" →
       (generateService env files g cacheIP dom service file fs).2 =
         some ("Could not find IP for requested service: " ++ strUpper service)) := by
  refine ⟨fun h => ?_, fun h => ?_, fun h hc => ?_⟩
  · simp [resolveIP, h]
  · simp [resolveIP, h]
  · have hip : resolveIP env cacheIP service = "" := by simp [resolveIP, h, hc]
    simp [generateService, hen, hip]

/-- Witness for C3: service `steam`, non-generic mode, override
`STEAMCACHE_IP=10.0.0.9` present, empty global IP. -/
theorem claim_c3_resolved_ip_witness :
    (getenv envSteamOverride (strUpper "steam" ++ "CACHE_IP") ≠ "" →
       resolveIP envSteamOverride "" "steam" =
         getenv envSteamOverride (strUpper "steam" ++ "CACHE_IP"))
    ∧ (getenv envSteamOverride (strUpper "steam" ++ "CACHE_IP") = "" →
       resolveIP envSteamOverride "" "steam" = "")
    ∧ (getenv envSteamOverride (strUpper "steam" ++ "CACHE_IP") = "" → "" = "" →
       (generateService envSteamOverride filesSteam "false" "" "cache.lancache.net"
           "steam" "steam.txt" fs0).2 =
         some ("Could not find IP for requested service: " ++ strUpper "steam")) :=
  claim_c3_resolved_ip envSteamOverride filesSteam "false" "" "cache.lancache.net"
    "steam" "steam.txt" fs0 (by decide)

/-- C4 as stated is false on the code: the domain file holding a `#` comment
line, a blank line and `store.steampowered.com` yields two RPZ rewrite lines,
not one — the blank line is not skipped and produces a rewrite line with an
empty owner field. -/
theorem claim_c4_counterexample :
    (generateDomains filesSteam "steam.txt" "cache.lancache.net" "steam" fs0).1.rpzZone
      = [" IN CNAME steam.cache.lancache.net.;",
         "store.steampowered.com IN CNAME steam.cache.lancache.net.;"]
    ∧ (generateDomains filesSteam "steam.txt" "cache.lancache.net" "steam" fs0).1.rpzZone.length
        ≠ 1 := by
  constructor <;> decide

/-- C4 (amended): `generateDomains` appends to the RPZ zone one line
`<domain> IN CNAME <service>.<dnsDomain>.;` for every line of the service's
domain file that does not start with `#`, trimmed of surrounding whitespace;
blank lines are not skipped, so a blank line yields a rewrite line with an
empty owner field, and the example file yields two lines. -/
theorem claim_c4_amended (files : String → Option (List String))
    (sf dom service : String) (lines : List String) (fs : FS)
    (h : files sf = some lines) :
    generateDomains files sf dom service fs =
      ({ fs with rpzZone := fs.rpzZone ++
           ((lines.filter (fun l => !(strHasPre l "#"))).map
             (fun l => trimStr l ++ " IN CNAME " ++ service ++ "." ++ dom ++ ".;")) }, none) := by
  simp [generateDomains, h, generateDomainsLoop_spec, domainLine]

/-- Witness for C4 (amended) at the example domain file. -/
theorem claim_c4_amended_witness :
    generateDomains filesSteam "steam.txt" "cache.lancache.net" "steam" fs0 =
      ({ fs0 with rpzZone := [" IN CNAME steam.cache.lancache.net.;",
                              "store.steampowered.com IN CNAME steam.cache.lancache.net.;"] },
       none) :=
  (claim_c4_amended filesSteam "steam.txt" "cache.lancache.net" "steam"
      ["# comment", "", "store.steampowered.com"] fs0 (by decide)).trans (by decide)

/-- C5 as stated is false on the code: at operator IP `203.0.113.5` the
record appended by the finalizer is not in the per-service passthrough format
`32.<reversedOctets>.rpz-client-ip      CNAME rpz-passthru.;` — the
finalizer's line carries no trailing semicolon. -/
theorem claim_c5_counterexample :
    finaliserPassthruLine "203.0.113.5" ≠ servicePassthruLine "203.0.113.5"
    ∧ finaliserPassthruLine "203.0.113.5"
        ≠ "32." ++ reverseIPv4 "203.0.113.5" ++ ".rpz-client-ip      CNAME rpz-passthru.;" := by
  constructor <;> decide

/-- C5 (amended): for every operator-declared passthrough IP the finalizer
appends a comment line and the reverse-IP CNAME record
`32.<reversedOctets>.rpz-client-ip      CNAME rpz-passthru.`, which matches
the per-service passthrough format except that the trailing semicolon is
missing. -/
theorem claim_c5_amended (env : Env) (custPath : String) (dns : List String) (fs : FS)
    (hp : getenv env "PASSTHRU_IPS" ≠ "")
    (hv : isIP (cleanIP (getenv env "PASSTHRU_IPS")) = none) :
    (finaliseConfiguration env custPath dns fs).1.rpzZone =
      fs.rpzZone ++ passthruDelta (cleanIP (getenv env "PASSTHRU_IPS"))
        ++ ["$INCLUDE " ++ custPath]
    ∧ ∀ ip, finaliserPassthruLine ip ++ ";" = servicePassthruLine ip := by
  constructor
  · cases hc : fs.customZone with
    | none =>
        simp [finaliseConfiguration, hp, hv, finaliserPassthruLoop_spec, FS.appendRPZ, hc]
    | some c =>
        simp [finaliseConfiguration, hp, hv, finaliserPassthruLoop_spec, FS.appendRPZ, hc]
  · intro ip
    have hsuf : (".rpz-client-ip      CNAME rpz-passthru." ++ ";" : String)
        = ".rpz-client-ip      CNAME rpz-passthru.;" := by decide
    simp only [finaliserPassthruLine, servicePassthruLine, String.append_assoc, hsuf]

/-- Witness for C5 (amended) at `PASSTHRU_IPS=203.0.113.5`. -/
theorem claim_c5_amended_witness :
    ((finaliseConfiguration envPassthru "custom.db" ["8.8.8.8"] fs0).1.rpzZone =
      fs0.rpzZone ++ passthruDelta (cleanIP (getenv envPassthru "PASSTHRU_IPS"))
        ++ ["$INCLUDE " ++ "custom.db"]
    ∧ ∀ ip, finaliserPassthruLine ip ++ ";" = servicePassthruLine ip) :=
  claim_c5_amended envPassthru "custom.db" ["8.8.8.8"] fs0 (by decide) (by decide)

/-- C6 as stated is false on the code: for service `steam` in generic mode
with global IP `8.8.8.8` (enabled, IP fails the private-range validation)
`generateService` returns the validation error, yet the RPZ service
delimiter `;## steam` has already been written to the RPZ artifact, so
record emission is not confined to services whose IPs all validated. -/
theorem claim_c6_counterexample :
    generateService envNone filesSteam "true" "8.8.8.8" "cache.lancache.net" "steam"
        "steam.txt" fs0
      = (⟨[], [";## steam"], none, ""⟩, some "IP address 8.8.8.8 is not within a private range")
    ∧ ([";## steam"] : List String) ≠ ([] : List String) := by
  constructor <;> decide

/-- C6 (amended): for an enabled service whose resolved IPs fail the
private-range validation, `generateService` returns the validation error and
writes nothing to the cache zone, no A records and no passthrough records —
but the RPZ service delimiter line has already been appended before the
validation runs. -/
theorem claim_c6_amended (env : Env) (files : String → Option (List String))
    (g cacheIP dom service file : String) (fs : FS) (e : String)
    (hen : serviceEnabled env g service = true)
    (hip : resolveIP env cacheIP service ≠ "")
    (hpriv : isPrivateIP (cleanIP (resolveIP env cacheIP service)) = some e) :
    generateService env files g cacheIP dom service file fs =
      ({ fs with rpzZone := fs.rpzZone ++ [";## " ++ strLower (strUpper service)] }, some e) := by
  simp [generateService, hen, hip, hpriv, FS.appendRPZ]

/-- Witness for C6 (amended) at service `steam`, generic mode, global IP
`8.8.8.8`. -/
theorem claim_c6_amended_witness :
    generateService envNone filesSteam "true" "8.8.8.8" "cache.lancache.net" "steam"
        "steam.txt" fs0
      = ({ fs0 with rpzZone := fs0.rpzZone ++ [";## " ++ strLower (strUpper "steam")] },
         some "IP address 8.8.8.8 is not within a private range") :=
  claim_c6_amended envNone filesSteam "true" "8.8.8.8" "cache.lancache.net" "steam"
    "steam.txt" fs0 "IP address 8.8.8.8 is not within a private range"
    (by decide) (by decide) (by decide)

end LancacheDNS

namespace LancacheDNS

/-- Strings with different first characters differ. -/
theorem str_ne_of_head (s t : String) (h : s.data.head? ≠ t.data.head?) : s ≠ t :=
  fun e => h (by rw [e])

/-- `generateService` only appends to the two zone artifacts: its additions
and its error do not depend on the incoming state, and the custom zone and
resolver template are untouched. -/
theorem generateService_frame (env : Env) (files : String → Option (List String))
    (g cacheIP dom service file : String) (fs : FS) :
    (generateService env files g cacheIP dom service file fs).1.cacheZone =
      fs.cacheZone ++ (generateService env files g cacheIP dom service file fs0).1.cacheZone
    ∧ (generateService env files g cacheIP dom service file fs).1.rpzZone =
      fs.rpzZone ++ (generateService env files g cacheIP dom service file fs0).1.rpzZone
    ∧ (generateService env files g cacheIP dom service file fs).1.customZone = fs.customZone
    ∧ (generateService env files g cacheIP dom service file fs).1.namedConf = fs.namedConf
    ∧ (generateService env files g cacheIP dom service file fs).2 =
      (generateService env files g cacheIP dom service file fs0).2 := by
  cases hen : serviceEnabled env g service with
  | false => simp [generateService, hen, fs0]
  | true =>
      cases hip : (resolveIP env cacheIP service != "") with
      | false => simp [generateService, hen, hip, fs0]
      | true =>
          cases hpriv : isPrivateIP (cleanIP (resolveIP env cacheIP service)) with
          | some e => simp [generateService, hen, hip, hpriv, FS.appendRPZ, fs0]
          | none =>
              cases hips : (cleanIP (resolveIP env cacheIP service)).isEmpty with
              | true =>
                  simp [generateService, hen, hip, hpriv, hips, serviceIPLoop_spec,
                    FS.appendRPZ, fs0]
              | false =>
                  cases hf : files file with
                  | none =>
                      simp [generateService, hen, hip, hpriv, hips, hf, generateDomains,
                        serviceIPLoop_spec, FS.appendRPZ, fs0]
                  | some lines =>
                      simp [generateService, hen, hip, hpriv, hips, hf, generateDomains,
                        generateDomainsLoop_spec, serviceIPLoop_spec, FS.appendRPZ, fs0]

/-- `checkService` only appends to the two zone artifacts; additions and
error do not depend on the incoming state. -/
theorem checkService_frame (env : Env) (files : String → Option (List String))
    (g cacheIP dom : String) (pairs : List (String × String)) :
    ∀ fs : FS,
      (checkService env files g cacheIP dom pairs fs).1.cacheZone =
        fs.cacheZone ++ (checkService env files g cacheIP dom pairs fs0).1.cacheZone
      ∧ (checkService env files g cacheIP dom pairs fs).1.rpzZone =
        fs.rpzZone ++ (checkService env files g cacheIP dom pairs fs0).1.rpzZone
      ∧ (checkService env files g cacheIP dom pairs fs).1.customZone = fs.customZone
      ∧ (checkService env files g cacheIP dom pairs fs).1.namedConf = fs.namedConf
      ∧ (checkService env files g cacheIP dom pairs fs).2 =
        (checkService env files g cacheIP dom pairs fs0).2 := by
  induction pairs with
  | nil => intro fs; simp [checkService, fs0]
  | cons p rest ih =>
      intro fs
      obtain ⟨sv, sf⟩ := p
      have hgs := generateService_frame env files g cacheIP dom sv sf fs
      rcases hr : generateService env files g cacheIP dom sv sf fs with ⟨a, err⟩
      rcases hr0 : generateService env files g cacheIP dom sv sf fs0 with ⟨a0, err0⟩
      rw [hr, hr0] at hgs
      obtain ⟨pc, prz, pcu, pn, pe⟩ := hgs
      dsimp only at pc prz pcu pn pe
      cases err0 with
      | some e =>
          subst pe
          simp [checkService, hr, hr0, pc, prz, pcu, pn]
      | none =>
          subst pe
          have ha := ih a
          have ha0 := ih a0
          simp only [checkService, hr, hr0]
          refine ⟨?_, ?_, ?_, ?_, ?_⟩
          · rw [ha.1, ha0.1, pc, List.append_assoc]
          · rw [ha.2.1, ha0.2.1, prz, List.append_assoc]
          · rw [ha.2.2.1, pcu]
          · rw [ha.2.2.2.1, pn]
          · rw [ha.2.2.2.2, ha0.2.2.2.2]

/-- `finaliseConfiguration` never touches the cache zone, only appends to
the RPZ zone, and its additions and error do not depend on the incoming
state. -/
theorem finaliseConfiguration_frame (env : Env) (custPath : String) (dns : List String)
    (fs : FS) :
    (finaliseConfiguration env custPath dns fs).1.cacheZone = fs.cacheZone
    ∧ (finaliseConfiguration env custPath dns fs).1.rpzZone =
        fs.rpzZone ++ (finaliseConfiguration env custPath dns fs0).1.rpzZone
    ∧ (finaliseConfiguration env custPath dns fs).2 =
        (finaliseConfiguration env custPath dns fs0).2 := by
  cases hpb : (getenv env "PASSTHRU_IPS" != "") with
  | false =>
      cases hc : fs.customZone with
      | none => simp [finaliseConfiguration, hpb, hc, FS.appendRPZ, fs0]
      | some c => simp [finaliseConfiguration, hpb, hc, FS.appendRPZ, fs0]
  | true =>
      cases hv : isIP (cleanIP (getenv env "PASSTHRU_IPS")) with
      | some e => simp [finaliseConfiguration, hpb, hv, fs0]
      | none =>
          cases hc : fs.customZone with
          | none =>
              simp [finaliseConfiguration, hpb, hv, hc, finaliserPassthruLoop_spec,
                FS.appendRPZ, fs0]
          | some c =>
              simp [finaliseConfiguration, hpb, hv, hc, finaliserPassthruLoop_spec,
                FS.appendRPZ, fs0]

/-- The part of a generation run that does not depend on the timestamp or on
the initial file contents: the cache-zone tail, the RPZ-zone tail and the
run's error, computed from the empty state. -/
def pipeTail (env : Env) (files : String → Option (List String)) (custPath : String)
    (entries : List ServiceEntry) (dns : List String)
    (g dom cacheIP : String) : List String × List String × Option String :=
  match identifyServices entries with
  | none => ([], [], some "runtime error: index out of range")
  | some (services, serviceFiles) =>
      match checkService env files g cacheIP dom (services.zip serviceFiles) fs0 with
      | (a, some e) => (a.cacheZone, a.rpzZone, some e)
      | (a, none) =>
          (a.cacheZone,
           a.rpzZone ++ (finaliseConfiguration env custPath dns fs0).1.rpzZone,
           (finaliseConfiguration env custPath dns fs0).2)

/-- Every generation run decomposes into the freshly written headers followed
by timestamp- and state-independent tails. -/
theorem generateConfiguration_split (env : Env) (files : String → Option (List String))
    (fmtC : String → String → String) (rpzT custPath : String)
    (entries : List ServiceEntry) (dns : List String)
    (g dom cacheIP : String) (t : Int) (fs : FS) :
    (generateConfiguration env files fmtC rpzT custPath entries dns g dom cacheIP t fs).1.cacheZone
      = fmtC dom (toString t) :: (pipeTail env files custPath entries dns g dom cacheIP).1
    ∧ (generateConfiguration env files fmtC rpzT custPath entries dns g dom cacheIP t fs).1.rpzZone
      = rpzT :: (pipeTail env files custPath entries dns g dom cacheIP).2.1
    ∧ (generateConfiguration env files fmtC rpzT custPath entries dns g dom cacheIP t fs).2
      = (pipeTail env files custPath entries dns g dom cacheIP).2.2 := by
  cases hid : identifyServices entries with
  | none =>
      simp [generateConfiguration, generateCacheZone, generateRPZZone, pipeTail, hid]
  | some p =>
      obtain ⟨services, serviceFiles⟩ := p
      have hcsf := checkService_frame env files g cacheIP dom (services.zip serviceFiles)
        { fs with cacheZone := [fmtC dom (toString t)], rpzZone := [rpzT] }
      rcases hcs : checkService env files g cacheIP dom (services.zip serviceFiles)
          { fs with cacheZone := [fmtC dom (toString t)], rpzZone := [rpzT] } with ⟨a, e⟩
      rcases hcs0 : checkService env files g cacheIP dom (services.zip serviceFiles) fs0
          with ⟨a0, e0⟩
      rw [hcs, hcs0] at hcsf
      obtain ⟨pc, prz, pcu, pn, pe⟩ := hcsf
      dsimp only at pc prz pcu pn pe
      cases e0 with
      | some err =>
          subst pe
          simp [generateConfiguration, generateCacheZone, generateRPZZone, pipeTail,
            hid, hcs, hcs0, pc, prz]
      | none =>
          subst pe
          have hfin := finaliseConfiguration_frame env custPath dns a
          simp only [generateConfiguration, generateCacheZone, generateRPZZone, pipeTail,
            hid, hcs, hcs0]
          refine ⟨?_, ?_, ?_⟩
          · rw [hfin.1, pc]
            rfl
          · rw [hfin.2.1, prz, List.append_assoc]
            rfl
          · exact hfin.2.2

/-- C7: two generation runs from identical inputs, regardless of the
timestamps and of any file content left by previous runs, produce the same
RPZ zone, the same outcome, and cache zones that agree except for the header
written with the respective serial timestamp — the initial truncation means
no previous content survives. -/
theorem claim_c7_idempotence (env : Env) (files : String → Option (List String))
    (fmtC : String → String → String) (rpzT custPath : String)
    (entries : List ServiceEntry) (dns : List String)
    (g dom cacheIP : String) (t1 t2 : Int) (fs1 fs2 : FS) :
    (generateConfiguration env files fmtC rpzT custPath entries dns g dom cacheIP t1 fs1).1.rpzZone
      = (generateConfiguration env files fmtC rpzT custPath entries dns g dom cacheIP t2 fs2).1.rpzZone
    ∧ (generateConfiguration env files fmtC rpzT custPath entries dns g dom cacheIP t1 fs1).2
      = (generateConfiguration env files fmtC rpzT custPath entries dns g dom cacheIP t2 fs2).2
    ∧ ∃ rest,
        (generateConfiguration env files fmtC rpzT custPath entries dns g dom cacheIP t1 fs1).1.cacheZone
          = fmtC dom (toString t1) :: rest
        ∧ (generateConfiguration env files fmtC rpzT custPath entries dns g dom cacheIP t2 fs2).1.cacheZone
          = fmtC dom (toString t2) :: rest := by
  obtain ⟨hc1, hr1, he1⟩ :=
    generateConfiguration_split env files fmtC rpzT custPath entries dns g dom cacheIP t1 fs1
  obtain ⟨hc2, hr2, he2⟩ :=
    generateConfiguration_split env files fmtC rpzT custPath entries dns g dom cacheIP t2 fs2
  exact ⟨hr1.trans hr2.symm, he1.trans he2.symm,
    ⟨(pipeTail env files custPath entries dns g dom cacheIP).1, hc1, hc2⟩⟩

end LancacheDNS

namespace LancacheDNS

/-- No line produced by the operator-passthrough loop is an `$INCLUDE`
directive: the comment lines start with `;` and the records with `3`. -/
theorem passthruDelta_no_include (custPath : String) (ips : List String) :
    (passthruDelta ips).filter (fun l => l == "$INCLUDE " ++ custPath) = [] := by
  induction ips with
  | nil => rfl
  | cons ip rest ih =>
      have hb : ("$INCLUDE " ++ custPath).data.head? = some '$' := rfl
      have h1 : ((";## Additional RPZ passthroughs" : String)
          == "$INCLUDE " ++ custPath) = false := by
        refine beq_eq_false_iff_ne.mpr (str_ne_of_head _ _ ?_)
        rw [hb]
        decide
      have h2 : (finaliserPassthruLine ip == "$INCLUDE " ++ custPath) = false := by
        refine beq_eq_false_iff_ne.mpr (str_ne_of_head _ _ ?_)
        have ha : (finaliserPassthruLine ip).data.head? = some '3' := rfl
        rw [ha, hb]
        decide
      simp [passthruDelta, h1, h2] at ih ⊢
      exact ih

/-- C8: when the finalizer completes without error it creates the operator
custom-zone file empty only when it was absent, never changes an existing
content, and appends exactly one `$INCLUDE <customZone>` line to the RPZ
zone (the only other lines it appends are passthrough comment/record lines,
none of which is that `$INCLUDE` line). -/
theorem claim_c8_custom_zone (env : Env) (custPath : String) (dns : List String) (fs : FS)
    (h : (finaliseConfiguration env custPath dns fs).2 = none) :
    (finaliseConfiguration env custPath dns fs).1.customZone = some (fs.customZone.getD "")
    ∧ ∃ pre,
        (finaliseConfiguration env custPath dns fs).1.rpzZone =
          fs.rpzZone ++ pre ++ ["$INCLUDE " ++ custPath]
        ∧ pre.filter (fun l => l == "$INCLUDE " ++ custPath) = [] := by
  cases hpb : (getenv env "PASSTHRU_IPS" != "") with
  | false =>
      cases hc : fs.customZone with
      | none =>
          refine ⟨?_, ⟨[], ?_, rfl⟩⟩
          · simp [finaliseConfiguration, hpb, hc, FS.appendRPZ]
          · simp [finaliseConfiguration, hpb, hc, FS.appendRPZ]
      | some c =>
          refine ⟨?_, ⟨[], ?_, rfl⟩⟩
          · simp [finaliseConfiguration, hpb, hc, FS.appendRPZ]
          · simp [finaliseConfiguration, hpb, hc, FS.appendRPZ]
  | true =>
      cases hv : isIP (cleanIP (getenv env "PASSTHRU_IPS")) with
      | some e => simp [finaliseConfiguration, hpb, hv] at h
      | none =>
          cases hc : fs.customZone with
          | none =>
              refine ⟨?_, ⟨passthruDelta (cleanIP (getenv env "PASSTHRU_IPS")), ?_,
                passthruDelta_no_include custPath _⟩⟩
              · simp [finaliseConfiguration, hpb, hv, hc, finaliserPassthruLoop_spec,
                  FS.appendRPZ]
              · simp [finaliseConfiguration, hpb, hv, hc, finaliserPassthruLoop_spec,
                  FS.appendRPZ]
          | some c =>
              refine ⟨?_, ⟨passthruDelta (cleanIP (getenv env "PASSTHRU_IPS")), ?_,
                passthruDelta_no_include custPath _⟩⟩
              · simp [finaliseConfiguration, hpb, hv, hc, finaliserPassthruLoop_spec,
                  FS.appendRPZ]
              · simp [finaliseConfiguration, hpb, hv, hc, finaliserPassthruLoop_spec,
                  FS.appendRPZ]

/-- Witness for C8: empty environment, absent custom zone. -/
theorem claim_c8_custom_zone_witness :
    (finaliseConfiguration envNone "custom.db" ["8.8.8.8"] fs0).1.customZone
        = some (fs0.customZone.getD "")
    ∧ ∃ pre,
        (finaliseConfiguration envNone "custom.db" ["8.8.8.8"] fs0).1.rpzZone =
          fs0.rpzZone ++ pre ++ ["$INCLUDE " ++ "custom.db"]
        ∧ pre.filter (fun l => l == "$INCLUDE " ++ "custom.db") = [] :=
  claim_c8_custom_zone envNone "custom.db" ["8.8.8.8"] fs0 (by decide)

end LancacheDNS
